import Mathlib

/-!
Shallow embedding of the MusicKit developer-token subsystem of the
`tuffahi` repository (files `src-tauri/src/musickit/mod.rs` and
`src-tauri/src/commands/token.rs`).

Modelling conventions:
* The process environment is a record of the four `APPLE_*` variables; a
  variable that is present (even with an empty value) is `some v`, an
  absent one is `none`, matching `std::env::var`.
* The filesystem (`std::fs::read_to_string`) is a record `Fs` holding one
  function from paths to `Except String String`; the error string stands
  for `io::Error::to_string()`.
* Cryptographic primitives from the `p256` / `jsonwebtoken` crates
  (PKCS#8 PEM parsing, DER re-encoding, ECDSA-P256 signing, and the
  base64url-of-JSON segment encoders) are abstract parameters packaged in
  `CryptoOps`; theorems quantify over them, witnesses instantiate them.
  The compact-JWT segment encoders of the real library are injective, so
  an equation `token = hdrEnc h ++ "." ++ clmEnc c ++ "." ++ sig` pins
  the decoded header to `h` and the decoded claims to `c`.
* Timestamps are `Int` seconds since the Unix epoch, matching
  `chrono::DateTime::timestamp`; `chrono::Duration::days n` adds exactly
  `n * 86400` seconds to the instant.
* The `OnceLock<String>` token cache is passed as explicit state
  `Option String`; each Tauri command returns its result paired with the
  cache state after the call.
-/

namespace Tuffahi

/-- The `TokenError` enum of `musickit/mod.rs`. -/
inductive TokenError where
  | KeyNotFound (detail : String)
  | KeyReadError (detail : String)
  | InvalidKey (detail : String)
  | EncodingError (detail : String)
  | ConfigMissing (field : String)
deriving DecidableEq, Repr

/-- The `thiserror` `Display` implementation derived from the
`#[error("...")]` attributes on `TokenError`. -/
def TokenError.display : TokenError → String
  | .KeyNotFound d => "Private key file not found: " ++ d
  | .KeyReadError d => "Failed to read private key: " ++ d
  | .InvalidKey d => "Invalid private key format: " ++ d
  | .EncodingError d => "JWT encoding failed: " ++ d
  | .ConfigMissing f => "Configuration missing: " ++ f

/-- The JWT `Claims` struct of `musickit/mod.rs`: issuer, issued-at and
expiry timestamps. -/
structure Claims where
  iss : String
  iat : Int
  exp : Int
deriving DecidableEq, Repr

/-- The `jsonwebtoken::Algorithm` enum (only `ES256` is used here). -/
inductive Algorithm where
  | HS256 | HS384 | HS512
  | ES256 | ES384
  | RS256 | RS384 | RS512
  | PS256 | PS384 | PS512
  | EdDSA
deriving DecidableEq, Repr

/-- The fields of `jsonwebtoken::Header` that this program writes. -/
structure Header where
  typ : Option String
  alg : Algorithm
  kid : Option String
deriving DecidableEq, Repr

/-- `jsonwebtoken::Header::new`: sets the algorithm, `typ = "JWT"`, and
leaves `kid` unset. -/
def Header.new (alg : Algorithm) : Header :=
  { typ := some "JWT", alg := alg, kid := none }

/-- The process environment restricted to the four variables the program
reads. `some v` means the variable is present with value `v` (possibly
empty), `none` that `std::env::var` fails with `NotPresent`. -/
structure Env where
  APPLE_TEAM_ID : Option String
  APPLE_KEY_ID : Option String
  APPLE_PRIVATE_KEY_PATH : Option String
  APPLE_PRIVATE_KEY : Option String
deriving DecidableEq, Repr

/-- The `MusicKitConfig` struct of `musickit/mod.rs`. Paths are kept as
strings (`PathBuf::from` on the environment value). -/
structure MusicKitConfig where
  team_id : String
  key_id : String
  private_key_path : Option String
  private_key_content : Option String
deriving DecidableEq, Repr

/-- The filesystem as seen through `std::fs::read_to_string`; the error
side carries `io::Error::to_string()`. -/
structure Fs where
  read_to_string : String → Except String String

/-- `Result::map_err`. -/
def mapErr (f : ε → ε') : Except ε α → Except ε' α
  | .ok a => .ok a
  | .error e => .error (f e)

/-- `MusicKitConfig::from_env`: requires `APPLE_TEAM_ID` and
`APPLE_KEY_ID` (the `?` operator on a missing variable is the early
error return modelled by the `none` branches), takes the two
key-material variables optionally, and rejects the environment when
both key-material variables are absent. -/
def MusicKitConfig.from_env (env : Env) : Except TokenError MusicKitConfig :=
  match env.APPLE_TEAM_ID with
  | none => Except.error (TokenError.ConfigMissing "APPLE_TEAM_ID")
  | some team_id =>
    match env.APPLE_KEY_ID with
    | none => Except.error (TokenError.ConfigMissing "APPLE_KEY_ID")
    | some key_id =>
      let private_key_path := env.APPLE_PRIVATE_KEY_PATH
      let private_key_content := env.APPLE_PRIVATE_KEY
      if private_key_path = none ∧ private_key_content = none then
        Except.error (TokenError.ConfigMissing
          "APPLE_PRIVATE_KEY_PATH or APPLE_PRIVATE_KEY")
      else
        Except.ok { team_id := team_id, key_id := key_id,
                    private_key_path := private_key_path,
                    private_key_content := private_key_content }

/-- `MusicKitConfig::get_private_key`: inline content first, then the
file at the configured path, else `ConfigMissing("Private key")`. -/
def MusicKitConfig.get_private_key (c : MusicKitConfig) (fs : Fs) :
    Except TokenError String :=
  match c.private_key_content with
  | some content => Except.ok content
  | none =>
    match c.private_key_path with
    | some path => mapErr TokenError.KeyReadError (fs.read_to_string path)
    | none => Except.error (TokenError.ConfigMissing "Private key")

/-- Abstract cryptographic primitives used by the issuer, over an
abstract parsed-key type `Key`:
* `from_pkcs8_pem` — `p256::ecdsa::SigningKey::from_pkcs8_pem`, error
  side stringified;
* `to_pkcs8_der` — `EncodePrivateKey::to_pkcs8_der`, yielding DER bytes;
* `ecdsa_sign` — the ECDSA-P256-SHA256 signature step inside
  `jsonwebtoken::encode` (DER key, signing input → base64url signature);
* `b64_json_header` / `b64_json_claims` — the base64url-of-JSON segment
  encoders of the JWT compact serialization (injective in reality). -/
structure CryptoOps (Key : Type) where
  from_pkcs8_pem : String → Except String Key
  to_pkcs8_der : Key → Except String (List Nat)
  ecdsa_sign : List Nat → String → Except String String
  b64_json_header : Header → String
  b64_json_claims : Claims → String

/-- `chrono::Duration::days` measured in seconds. -/
def durationDays (n : Int) : Int := n * 86400

/-- `jsonwebtoken::encode`: builds the signing input
`b64(header) ++ "." ++ b64(claims)`, signs it, and appends the
signature; a signing failure surfaces as `EncodingError`. -/
def jwt_encode (ops : CryptoOps Key) (header : Header) (claims : Claims)
    (key_der : List Nat) : Except TokenError String :=
  let message := ops.b64_json_header header ++ "." ++ ops.b64_json_claims claims
  match mapErr TokenError.EncodingError (ops.ecdsa_sign key_der message) with
  | .error e => .error e
  | .ok sig => .ok (message ++ "." ++ sig)

/-- `generate_developer_token` of `musickit/mod.rs`: obtain the PEM,
parse it (`parse_private_key`, failure → `InvalidKey`), build the ES256
header carrying the key id, build claims `iss = team_id`, `iat = now`,
`exp = now + 180 days`, re-encode the key to PKCS#8 DER (failure →
`InvalidKey`), and encode the JWT. `now` is the `Utc::now()` timestamp
in seconds. -/
def generate_developer_token (ops : CryptoOps Key) (fs : Fs)
    (config : MusicKitConfig) (now : Int) : Except TokenError String :=
  match config.get_private_key fs with
  | .error e => .error e
  | .ok private_key_pem =>
    match mapErr TokenError.InvalidKey (ops.from_pkcs8_pem private_key_pem) with
    | .error e => .error e
    | .ok signing_key =>
      let header := { Header.new Algorithm.ES256 with kid := some config.key_id }
      let expiration := now + durationDays 180
      let claims : Claims := { iss := config.team_id, iat := now, exp := expiration }
      match mapErr TokenError.InvalidKey (ops.to_pkcs8_der signing_key) with
      | .error e => .error e
      | .ok der => jwt_encode ops header claims der

/-- `generate_demo_token` of `musickit/mod.rs`. -/
def generate_demo_token : String := "DEMO_TOKEN_REPLACE_WITH_REAL_TOKEN"

/-- `get_developer_token` of `commands/token.rs`, with the `OnceLock`
cache passed as explicit state. Returns the command result together
with the cache state after the call. On a cache miss the freshly
computed token (real on success, demo on any failure) is stored and
returned. -/
def get_developer_token (ops : CryptoOps Key) (fs : Fs) (env : Env)
    (now : Int) (cache : Option String) :
    Except String String × Option String :=
  match cache with
  | some token => (Except.ok token, some token)
  | none =>
    let token :=
      match MusicKitConfig.from_env env with
      | .ok config =>
        match generate_developer_token ops fs config now with
        | .ok t => t
        | .error _ => generate_demo_token
      | .error _ => generate_demo_token
    (Except.ok token, some token)

/-- `refresh_developer_token` of `commands/token.rs`: resolves and signs
unconditionally, stringifying errors. The `OnceLock` cache is never
read or written by this command (a `OnceLock`, once set, cannot be
replaced), so the cache state is returned unchanged. -/
def refresh_developer_token (ops : CryptoOps Key) (fs : Fs) (env : Env)
    (now : Int) (cache : Option String) :
    Except String String × Option String :=
  match MusicKitConfig.from_env env with
  | .ok config =>
    match generate_developer_token ops fs config now with
    | .ok t => (Except.ok t, cache)
    | .error e => (Except.error ("Failed to generate token: " ++ e.display), cache)
  | .error e => (Except.error ("Configuration error: " ++ e.display), cache)

/-- `is_musickit_configured` of `commands/token.rs`:
`MusicKitConfig::from_env().is_ok()`. It takes neither the cache nor
the crypto/filesystem capabilities: it performs no signing and has no
cache side effect. -/
def is_musickit_configured (env : Env) : Bool :=
  match MusicKitConfig.from_env env with
  | .ok _ => true
  | .error _ => false

/-! Concrete instances used to evaluate the model on closed inputs. -/

/-- A concrete `CryptoOps` instance (with the parsed-key type `Unit`) in
which every primitive succeeds; stands in for a valid P-256 key. -/
def opsDemo : CryptoOps Unit where
  from_pkcs8_pem := fun _ => Except.ok ()
  to_pkcs8_der := fun _ => Except.ok []
  ecdsa_sign := fun _ _ => Except.ok "SIG"
  b64_json_header := fun _ => "HDR"
  b64_json_claims := fun _ => "CLM"

/-- A concrete `CryptoOps` instance in which PEM parsing always fails,
standing in for invalid key material. -/
def opsBadKey : CryptoOps Unit where
  from_pkcs8_pem := fun _ => Except.error "malformed PEM"
  to_pkcs8_der := fun _ => Except.ok []
  ecdsa_sign := fun _ _ => Except.ok "SIG"
  b64_json_header := fun _ => "HDR"
  b64_json_claims := fun _ => "CLM"

/-- A filesystem on which every read fails. -/
def fsEmpty : Fs where
  read_to_string := fun p => Except.error ("No such file or directory: " ++ p)

/-- An environment with no `APPLE_*` variable set. -/
def envEmpty : Env := ⟨none, none, none, none⟩

/-- A fully configured environment with inline key material. -/
def envFull : Env := ⟨some "ABC123", some "KEY1", none, some "PEM"⟩

/-- The config that `from_env` resolves from `envFull`. -/
def configDemo : MusicKitConfig := ⟨"ABC123", "KEY1", none, some "PEM"⟩

/-- An environment whose required identifier variables are present but
hold empty strings (`APPLE_TEAM_ID=` / `APPLE_KEY_ID=` in a shell). -/
def envEmptyIds : Env := ⟨some "", some "", none, some "PEM"⟩

/-! Shared helper lemmas. -/

/-- `get_developer_token` always returns `Ok` with some string and
caches exactly that string. -/
theorem get_developer_token_shape (ops : CryptoOps Key) (fs : Fs) (env : Env)
    (now : Int) (cache : Option String) :
    ∃ t, get_developer_token ops fs env now cache = (Except.ok t, some t) := by
  cases cache with
  | some token => exact ⟨token, rfl⟩
  | none => exact ⟨_, rfl⟩

/-- Inversion for a successful `from_env`: every field of the resulting
config is the corresponding environment value, and at least one
key-material field is present. -/
theorem from_env_ok_inv (env : Env) (c : MusicKitConfig)
    (h : MusicKitConfig.from_env env = Except.ok c) :
    env.APPLE_TEAM_ID = some c.team_id ∧
    env.APPLE_KEY_ID = some c.key_id ∧
    env.APPLE_PRIVATE_KEY_PATH = c.private_key_path ∧
    env.APPLE_PRIVATE_KEY = c.private_key_content ∧
    (c.private_key_path ≠ none ∨ c.private_key_content ≠ none) := by
  obtain ⟨a, b, p, k⟩ := env
  cases a with
  | none => simp [MusicKitConfig.from_env] at h
  | some t =>
    cases b with
    | none => simp [MusicKitConfig.from_env] at h
    | some u =>
      cases p <;> cases k <;>
        simp_all [MusicKitConfig.from_env] <;>
        simp [← h]

/-- When at least one key-material field is present, a failing
`get_private_key` can only fail with `KeyReadError`. -/
theorem get_private_key_error_shape (c : MusicKitConfig) (fs : Fs)
    (hkeys : c.private_key_path ≠ none ∨ c.private_key_content ≠ none)
    (e : TokenError) (h : c.get_private_key fs = Except.error e) :
    ∃ d, e = TokenError.KeyReadError d := by
  cases hk : c.private_key_content with
  | some content => simp [MusicKitConfig.get_private_key, hk] at h
  | none =>
    cases hp : c.private_key_path with
    | none => simp [hk, hp] at hkeys
    | some path =>
      simp [MusicKitConfig.get_private_key, hk, hp] at h
      cases hr : fs.read_to_string path with
      | ok s => rw [hr] at h; simp [mapErr] at h
      | error d =>
        rw [hr] at h
        simp [mapErr] at h
        exact ⟨d, h.symm⟩

/-! Claim theorems. -/

/-- C6: `from_env` fails with `ConfigMissing` naming the absent field
exactly when `APPLE_TEAM_ID` is absent, `APPLE_KEY_ID` is absent, or
both key-material variables are absent; in every other environment it
returns the config assembled from the environment values, and every
`from_env` error is a `ConfigMissing`. -/
theorem c6_from_env_characterization (env : Env) :
    (env.APPLE_TEAM_ID = none →
      MusicKitConfig.from_env env =
        Except.error (TokenError.ConfigMissing "APPLE_TEAM_ID"))
  ∧ (∀ t, env.APPLE_TEAM_ID = some t → env.APPLE_KEY_ID = none →
      MusicKitConfig.from_env env =
        Except.error (TokenError.ConfigMissing "APPLE_KEY_ID"))
  ∧ (∀ t k, env.APPLE_TEAM_ID = some t → env.APPLE_KEY_ID = some k →
      env.APPLE_PRIVATE_KEY_PATH = none → env.APPLE_PRIVATE_KEY = none →
      MusicKitConfig.from_env env =
        Except.error (TokenError.ConfigMissing
          "APPLE_PRIVATE_KEY_PATH or APPLE_PRIVATE_KEY"))
  ∧ (∀ t k, env.APPLE_TEAM_ID = some t → env.APPLE_KEY_ID = some k →
      (env.APPLE_PRIVATE_KEY_PATH ≠ none ∨ env.APPLE_PRIVATE_KEY ≠ none) →
      MusicKitConfig.from_env env =
        Except.ok ⟨t, k, env.APPLE_PRIVATE_KEY_PATH, env.APPLE_PRIVATE_KEY⟩)
  ∧ (∀ e, MusicKitConfig.from_env env = Except.error e →
      ∃ f, e = TokenError.ConfigMissing f) := by
  obtain ⟨a, b, p, k⟩ := env
  refine ⟨?_, ?_, ?_, ?_, ?_⟩ <;>
    cases a <;> cases b <;> cases p <;> cases k <;>
      simp [MusicKitConfig.from_env]

/-- C6 witness: with no variables set, `from_env` reports the missing
`APPLE_TEAM_ID`. -/
theorem c6_witness :
    envEmpty.APPLE_TEAM_ID = none ∧
    MusicKitConfig.from_env envEmpty =
      Except.error (TokenError.ConfigMissing "APPLE_TEAM_ID") :=
  ⟨rfl, (c6_from_env_characterization envEmpty).1 rfl⟩

/-- C8: `is_musickit_configured` is true exactly when resolution
succeeds, which in turn depends only on the presence of the required
variables and of at least one key-material variable — never on the
validity of the key content. The embedding of the command takes neither
the cache nor the crypto or filesystem capabilities, reflecting that it
performs no signing and has no cache side effect. -/
theorem c8_is_configured_iff_resolution (env : Env) :
    (is_musickit_configured env = true ↔
      ∃ c, MusicKitConfig.from_env env = Except.ok c)
  ∧ is_musickit_configured env =
      (env.APPLE_TEAM_ID.isSome && env.APPLE_KEY_ID.isSome &&
        (env.APPLE_PRIVATE_KEY_PATH.isSome || env.APPLE_PRIVATE_KEY.isSome)) := by
  obtain ⟨a, b, p, k⟩ := env
  cases a <;> cases b <;> cases p <;> cases k <;>
    simp [is_musickit_configured, MusicKitConfig.from_env]

/-- C7: `get_private_key` returns the inline key content verbatim
whenever it is present — for every filesystem, so the filesystem is not
consulted — and reads the configured file only when the inline content
is absent. -/
theorem c7_inline_key_precedence (c : MusicKitConfig) :
    (∀ content, c.private_key_content = some content → ∀ fs : Fs,
      c.get_private_key fs = Except.ok content)
  ∧ (c.private_key_content = none → ∀ path, c.private_key_path = some path →
      ∀ fs : Fs,
      c.get_private_key fs =
        mapErr TokenError.KeyReadError (fs.read_to_string path)) := by
  constructor
  · intro content h fs
    simp [MusicKitConfig.get_private_key, h]
  · intro hnone path hpath fs
    simp [MusicKitConfig.get_private_key, hnone, hpath]

/-- C7 witness: `configDemo` carries inline content `"PEM"`, and
`get_private_key` returns it even on a filesystem where every read
fails. -/
theorem c7_witness :
    configDemo.private_key_content = some "PEM" ∧
    configDemo.get_private_key fsEmpty = Except.ok "PEM" :=
  ⟨rfl, (c7_inline_key_precedence configDemo).1 "PEM" rfl fsEmpty⟩

/-- C9 counterexample: with `APPLE_TEAM_ID` and `APPLE_KEY_ID` present
but empty, `from_env` succeeds and returns a config whose `team_id` and
`key_id` are the empty string, refuting the non-emptiness claim. -/
theorem c9_counterexample :
    MusicKitConfig.from_env envEmptyIds =
      Except.ok ⟨"", "", none, some "PEM"⟩ ∧
    ("" : String).length = 0 := ⟨rfl, rfl⟩

/-- C9 (amended): a successful `from_env` copies the environment's
team-identifier and key-identifier values verbatim into the config; it
performs no non-emptiness validation, so they are non-empty exactly
when the environment values are. -/
theorem c9_env_values_propagated (env : Env) (c : MusicKitConfig)
    (h : MusicKitConfig.from_env env = Except.ok c) :
    env.APPLE_TEAM_ID = some c.team_id ∧
    env.APPLE_KEY_ID = some c.key_id ∧
    (c.team_id ≠ "" ↔ env.APPLE_TEAM_ID ≠ some "") ∧
    (c.key_id ≠ "" ↔ env.APPLE_KEY_ID ≠ some "") := by
  obtain ⟨h1, h2, -, -, -⟩ := from_env_ok_inv env c h
  refine ⟨h1, h2, ?_, ?_⟩ <;> simp [h1, h2]

/-- C9 witness: on `envFull` the resolved config carries the
environment's identifier values. -/
theorem c9_witness :
    MusicKitConfig.from_env envFull = Except.ok configDemo ∧
    envFull.APPLE_TEAM_ID = some configDemo.team_id ∧
    envFull.APPLE_KEY_ID = some configDemo.key_id ∧
    (configDemo.team_id ≠ "" ↔ envFull.APPLE_TEAM_ID ≠ some "") ∧
    (configDemo.key_id ≠ "" ↔ envFull.APPLE_KEY_ID ≠ some "") :=
  ⟨rfl, c9_env_values_propagated envFull configDemo rfl⟩

/-- C2: `get_developer_token` always returns `Ok`: a cached token is
returned as is; on a cache miss with failing resolution, or with
successful resolution but failing signing, the fixed placeholder string
is returned instead of the error. -/
theorem c2_get_developer_token_never_fails (ops : CryptoOps Key) (fs : Fs)
    (env : Env) (now : Int) (cache : Option String) :
    (∃ s, (get_developer_token ops fs env now cache).fst = Except.ok s)
  ∧ (∀ t, cache = some t →
      (get_developer_token ops fs env now cache).fst = Except.ok t)
  ∧ (cache = none → (∃ e, MusicKitConfig.from_env env = Except.error e) →
      (get_developer_token ops fs env now cache).fst =
        Except.ok "DEMO_TOKEN_REPLACE_WITH_REAL_TOKEN")
  ∧ (∀ config, cache = none → MusicKitConfig.from_env env = Except.ok config →
      (∃ e, generate_developer_token ops fs config now = Except.error e) →
      (get_developer_token ops fs env now cache).fst =
        Except.ok "DEMO_TOKEN_REPLACE_WITH_REAL_TOKEN") := by
  refine ⟨?_, ?_, ?_, ?_⟩
  · obtain ⟨t, h⟩ := get_developer_token_shape ops fs env now cache
    exact ⟨t, by rw [h]⟩
  · intro t h
    subst h
    rfl
  · rintro hc ⟨e, he⟩
    subst hc
    simp [get_developer_token, he, generate_demo_token]
  · rintro config hc hok ⟨e, he⟩
    subst hc
    simp [get_developer_token, hok, he, generate_demo_token]

/-- C2 witness: with no `APPLE_*` variable set and an empty cache, the
command returns the placeholder. -/
theorem c2_witness :
    (∃ e, MusicKitConfig.from_env envEmpty = Except.error e) ∧
    (get_developer_token opsDemo fsEmpty envEmpty 0 none).fst =
      Except.ok "DEMO_TOKEN_REPLACE_WITH_REAL_TOKEN" :=
  ⟨⟨TokenError.ConfigMissing "APPLE_TEAM_ID", rfl⟩,
    (c2_get_developer_token_never_fails opsDemo fsEmpty envEmpty 0 none).2.2.1
      rfl ⟨TokenError.ConfigMissing "APPLE_TEAM_ID", rfl⟩⟩

/-- C5: two sequential `get_developer_token` calls with no intervening
refresh return the identical string (the second call, at any later
time, is answered from the cache the first call filled) and leave the
cache unchanged after the first call. -/
theorem c5_get_idempotent (ops : CryptoOps Key) (fs : Fs) (env : Env)
    (now1 now2 : Int) (cache : Option String) :
    (get_developer_token ops fs env now2
        (get_developer_token ops fs env now1 cache).snd).fst =
      (get_developer_token ops fs env now1 cache).fst ∧
    (get_developer_token ops fs env now2
        (get_developer_token ops fs env now1 cache).snd).snd =
      (get_developer_token ops fs env now1 cache).snd := by
  obtain ⟨t, h⟩ := get_developer_token_shape ops fs env now1 cache
  rw [h]
  exact ⟨rfl, rfl⟩

/-- C4: whenever resolution fails, or resolution succeeds but signing
fails, `refresh_developer_token` returns an error and returns the cache
state exactly as it received it — no placeholder or other value is
written. -/
theorem c4_refresh_failure_preserves_cache (ops : CryptoOps Key) (fs : Fs)
    (env : Env) (now : Int) (cache : Option String)
    (hfail : ∀ config, MusicKitConfig.from_env env = Except.ok config →
      ∀ t, generate_developer_token ops fs config now ≠ Except.ok t) :
    (∃ msg, (refresh_developer_token ops fs env now cache).fst = Except.error msg)
  ∧ (refresh_developer_token ops fs env now cache).snd = cache := by
  cases hfe : MusicKitConfig.from_env env with
  | error e =>
    refine ⟨⟨"Configuration error: " ++ e.display, ?_⟩, ?_⟩ <;>
      simp [refresh_developer_token, hfe]
  | ok config =>
    cases hg : generate_developer_token ops fs config now with
    | error e =>
      refine ⟨⟨"Failed to generate token: " ++ e.display, ?_⟩, ?_⟩ <;>
        simp [refresh_developer_token, hfe, hg]
    | ok t => exact absurd hg (hfail config hfe t)

/-- C4 witness: with nothing configured and a previously cached token
`"OLD"`, the refresh command errors and the cache still holds
`"OLD"`. -/
theorem c4_witness :
    (∃ msg, (refresh_developer_token opsDemo fsEmpty envEmpty 0
        (some "OLD")).fst = Except.error msg)
  ∧ (refresh_developer_token opsDemo fsEmpty envEmpty 0
        (some "OLD")).snd = some "OLD" :=
  c4_refresh_failure_preserves_cache opsDemo fsEmpty envEmpty 0 (some "OLD")
    (fun config hconfig _ _ => by
      simp [MusicKitConfig.from_env, envEmpty] at hconfig)

/-- C1: evaluation of the code at a failing input for the claim that a
successful refresh overwrites the cache. On a fully configured
environment with a working key, and a cache already holding `"OLD"`,
`refresh_developer_token` returns the fresh token `"HDR.CLM.SIG"` but
returns the cache untouched — the Rust command never writes the
`OnceLock`, which cannot be overwritten once set — so a subsequent
`get_developer_token` still returns the stale `"OLD"`, which differs
from the fresh token. -/
theorem c1_refresh_leaves_stale_cache :
    (refresh_developer_token opsDemo fsEmpty envFull 0 (some "OLD")).fst
      = Except.ok "HDR.CLM.SIG" ∧
    (refresh_developer_token opsDemo fsEmpty envFull 0 (some "OLD")).snd
      = some "OLD" ∧
    (get_developer_token opsDemo fsEmpty envFull 0
        (refresh_developer_token opsDemo fsEmpty envFull 0 (some "OLD")).snd).fst
      = Except.ok "OLD" ∧
    ("OLD" : String) ≠ "HDR.CLM.SIG" :=
  ⟨rfl, rfl, rfl, by decide⟩

/-- C3: when the key material resolves and parses, and the DER
re-encoding and ECDSA signing primitives succeed (they are total on
valid keys in the real libraries), `generate_developer_token` returns a
compact JWT whose header segment encodes algorithm `ES256` with `kid`
equal to the config's key id, and whose claims segment encodes
`iss = team_id` and `exp - iat` of exactly 180 days, i.e. 15 552 000
seconds. The segment encoders of the compact serialization are
injective, so the equation pins the decoded header and claims. -/
theorem c3_token_header_and_claims (ops : CryptoOps Key) (fs : Fs)
    (config : MusicKitConfig) (now : Int) (pem : String) (key : Key)
    (hpem : config.get_private_key fs = Except.ok pem)
    (hparse : ops.from_pkcs8_pem pem = Except.ok key)
    (hder : ∀ k : Key, ∃ d, ops.to_pkcs8_der k = Except.ok d)
    (hsign : ∀ d m, ∃ s, ops.ecdsa_sign d m = Except.ok s) :
    ∃ header claims sig,
      header.alg = Algorithm.ES256 ∧
      header.kid = some config.key_id ∧
      claims.iss = config.team_id ∧
      claims.iat = now ∧
      claims.exp - claims.iat = durationDays 180 ∧
      durationDays 180 = 15552000 ∧
      generate_developer_token ops fs config now =
        Except.ok (ops.b64_json_header header ++ "." ++
          ops.b64_json_claims claims ++ "." ++ sig) := by
  obtain ⟨d, hd⟩ := hder key
  obtain ⟨s, hs⟩ := hsign d
    (ops.b64_json_header { Header.new Algorithm.ES256 with kid := some config.key_id } ++
      "." ++ ops.b64_json_claims
        { iss := config.team_id, iat := now, exp := now + durationDays 180 })
  refine ⟨{ Header.new Algorithm.ES256 with kid := some config.key_id },
          { iss := config.team_id, iat := now, exp := now + durationDays 180 },
          s, rfl, rfl, rfl, rfl, by simp, by norm_num [durationDays], ?_⟩
  simp [generate_developer_token, hpem, hparse, hd, hs, jwt_encode, mapErr]

/-- C3 witness: with inline key material `"PEM"` and the concrete
always-succeeding primitives, the conclusion holds at time 0. -/
theorem c3_witness :
    configDemo.get_private_key fsEmpty = Except.ok "PEM" ∧
    opsDemo.from_pkcs8_pem "PEM" = Except.ok () ∧
    (∃ header claims sig,
      Header.alg header = Algorithm.ES256 ∧
      Header.kid header = some configDemo.key_id ∧
      Claims.iss claims = configDemo.team_id ∧
      Claims.iat claims = 0 ∧
      Claims.exp claims - Claims.iat claims = durationDays 180 ∧
      durationDays 180 = 15552000 ∧
      generate_developer_token opsDemo fsEmpty configDemo 0 =
        Except.ok (opsDemo.b64_json_header header ++ "." ++
          opsDemo.b64_json_claims claims ++ "." ++ sig)) :=
  ⟨rfl, rfl,
    c3_token_header_and_claims opsDemo fsEmpty configDemo 0 "PEM" ()
      rfl rfl (fun _ => ⟨[], rfl⟩) (fun _ _ => ⟨"SIG", rfl⟩)⟩

/-- C10: for any config produced by a successful `from_env`, the final
`ConfigMissing "Private key"` branch of `get_private_key` is
unreachable, and `generate_developer_token` can only fail with
`KeyReadError`, `InvalidKey` or `EncodingError`. -/
theorem c10_config_missing_unreachable (ops : CryptoOps Key) (fs : Fs)
    (env : Env) (now : Int) (c : MusicKitConfig)
    (h : MusicKitConfig.from_env env = Except.ok c) :
    (∀ f, c.get_private_key fs ≠ Except.error (TokenError.ConfigMissing f))
  ∧ (∀ e, generate_developer_token ops fs c now = Except.error e →
      (∃ d, e = TokenError.KeyReadError d) ∨
      (∃ d, e = TokenError.InvalidKey d) ∨
      (∃ d, e = TokenError.EncodingError d)) := by
  obtain ⟨-, -, -, -, hkeys⟩ := from_env_ok_inv env c h
  constructor
  · intro f hcontra
    obtain ⟨d, hd⟩ := get_private_key_error_shape c fs hkeys _ hcontra
    exact absurd hd (by simp)
  · intro e he
    cases hpk : c.get_private_key fs with
    | error e1 =>
      simp [generate_developer_token, hpk] at he
      obtain ⟨d, hd⟩ := get_private_key_error_shape c fs hkeys e1 hpk
      subst he
      exact Or.inl ⟨d, hd⟩
    | ok pem =>
      cases hp : ops.from_pkcs8_pem pem with
      | error e2 =>
        simp [generate_developer_token, hpk, mapErr, hp] at he
        exact Or.inr (Or.inl ⟨e2, he.symm⟩)
      | ok key =>
        cases hd2 : ops.to_pkcs8_der key with
        | error e3 =>
          simp [generate_developer_token, hpk, mapErr, hp, hd2] at he
          exact Or.inr (Or.inl ⟨e3, he.symm⟩)
        | ok der =>
          cases hs : ops.ecdsa_sign der
              (ops.b64_json_header
                  { Header.new Algorithm.ES256 with kid := some c.key_id } ++
                "." ++ ops.b64_json_claims
                  { iss := c.team_id, iat := now, exp := now + durationDays 180 }) with
          | error e4 =>
            simp [generate_developer_token, hpk, mapErr, hp, hd2,
              jwt_encode, hs] at he
            exact Or.inr (Or.inr ⟨e4, he.symm⟩)
          | ok sg =>
            simp [generate_developer_token, hpk, mapErr, hp, hd2,
              jwt_encode, hs] at he

/-- C10 witness: `envFull` resolves to `configDemo`; with primitives
whose PEM parsing fails, signing fails with `InvalidKey`, one of the
three permitted error shapes. -/
theorem c10_witness :
    MusicKitConfig.from_env envFull = Except.ok configDemo ∧
    generate_developer_token opsBadKey fsEmpty configDemo 0 =
      Except.error (TokenError.InvalidKey "malformed PEM") ∧
    ((∃ d, TokenError.InvalidKey "malformed PEM" = TokenError.KeyReadError d) ∨
     (∃ d, TokenError.InvalidKey "malformed PEM" = TokenError.InvalidKey d) ∨
     (∃ d, TokenError.InvalidKey "malformed PEM" = TokenError.EncodingError d)) :=
  ⟨rfl, rfl,
    (c10_config_missing_unreachable opsBadKey fsEmpty envFull 0 configDemo
      rfl).2 _ rfl⟩

end Tuffahi
